import Mathlib

/-!
Verification development for the MMOProject-spacetimeDB server modules.

The Rust reducers are shallowly embedded as pure Lean functions over an
explicit database state.  Modelling conventions:

* `f32`/`f64` arithmetic is modelled by exact rational arithmetic (`ℚ`).
  Where the source computes `sqrt(d)` only to compare it with a nonnegative
  constant `c`, the model compares `d` with `c * c`, which is equivalent over
  the reals.  Where a proposed position can be a non-finite float
  (`update_player_position` validation), inputs are modelled by the `F32`
  type below, which carries the IEEE special values.
* SpacetimeDB tables are lists of rows; `find`/`update`/`delete` by primary
  key become `List.find?` / keyed `List.map` replacement / `List.filter`.
* `ctx.sender` and `ctx.timestamp` are explicit `Ctx` fields.  Timestamps
  are integers counting seconds, matching the second-granularity durations
  in the source (30 s respawn, 300 s inactivity timeout).
* `generate_unique_id` hashes the identity, the timestamp and runtime
  entropy; its output is modelled as an opaque supplied fresh id
  (`Ctx.fresh_id`); no claim depends on its value.
-/

/-- Caller identities are opaque unique values; modelled as naturals. -/
abbrev Identity := ℕ

/-- Timestamps in seconds. -/
abbrev Time := ℤ

/-- Model of an `f32` input that may carry the IEEE special values.  Only the
operations actually used by the embedded code are provided. -/
inductive F32 where
  | fin (q : ℚ)
  | posInf
  | negInf
  | nan
  deriving DecidableEq

/-- Rust `f32::is_finite`. -/
def F32.isFinite : F32 → Bool
  | .fin _ => true
  | _ => false

/-- Subtraction of a finite float from a possibly non-finite one. -/
def F32.subQ : F32 → ℚ → F32
  | .fin q, p => .fin (q - p)
  | .posInf, _ => .posInf
  | .negInf, _ => .negInf
  | .nan, _ => .nan

/-- Squaring; both infinities square to `+inf`. -/
def F32.sq : F32 → F32
  | .fin q => .fin (q * q)
  | .posInf => .posInf
  | .negInf => .posInf
  | .nan => .nan

/-- IEEE addition restricted to the values reachable here. -/
def F32.add : F32 → F32 → F32
  | .nan, _ => .nan
  | _, .nan => .nan
  | .posInf, .negInf => .nan
  | .negInf, .posInf => .nan
  | .posInf, _ => .posInf
  | _, .posInf => .posInf
  | .negInf, _ => .negInf
  | _, .negInf => .negInf
  | .fin a, .fin b => .fin (a + b)

/-- IEEE `>` against a finite constant: comparisons with `nan` are false. -/
def F32.gtQ : F32 → ℚ → Bool
  | .fin q, c => decide (c < q)
  | .posInf, _ => true
  | .negInf, _ => false
  | .nan, _ => false

/-- Extract the rational value; only used after a finiteness check passed. -/
def F32.toQ : F32 → ℚ
  | .fin q => q
  | _ => 0

/-- `SharedModule/src/constants.rs`: `INACTIVITY_TIMEOUT_SECONDS`. -/
def INACTIVITY_TIMEOUT_SECONDS : Time := 300

/-- `SharedModule/src/constants.rs`: `MAX_MOVEMENT_DISTANCE`. -/
def MAX_MOVEMENT_DISTANCE : ℚ := 50

/-- Exact rational square root used by the movement helpers; agrees with the
real square root whenever numerator and denominator are perfect squares
(every concrete input evaluated below is of this form). -/
def sqrtQ (q : ℚ) : ℚ := (Int.sqrt q.num : ℚ) / (Nat.sqrt q.den : ℚ)

/-- `SharedModule/src/utils.rs` `calculate_distance`, squared: the source
computes the square root of this value; every use compares the result with a
nonnegative constant, which is modelled by comparing this value with the
squared constant. -/
def calculate_distance_sq (x1 y1 z1 x2 y2 z2 : ℚ) : ℚ :=
  (x2 - x1) ^ 2 + (y2 - y1) ^ 2 + (z2 - z1) ^ 2

/-- `SharedModule/src/utils.rs` `validate_movement`.  The source compares
`sqrt(dsq) > max_distance`; the model compares `dsq > max_distance²`
(equivalent over the reals, and with the same IEEE behaviour on `inf`/`nan`
because squaring and square roots preserve the special values and comparisons
with `nan` are false). -/
def validate_movement (old_x old_y old_z : ℚ) (new_x new_y new_z : F32)
    (max_distance : ℚ) : Except String Unit :=
  let dsq := F32.add (F32.add ((new_x.subQ old_x).sq) ((new_y.subQ old_y).sq))
      ((new_z.subQ old_z).sq)
  if dsq.gtQ (max_distance * max_distance) then
    Except.error "Invalid movement detected: distance too large"
  else if ¬(new_x.isFinite ∧ new_y.isFinite ∧ new_z.isFinite) then
    Except.error "Invalid position coordinates"
  else Except.ok ()

/-- Row of the `player` table (`ServerModule/src/tables/table.rs`). -/
structure Player where
  identity : Identity
  username : String
  position_x : ℚ
  position_y : ℚ
  position_z : ℚ
  rotation_yaw : ℚ
  level : ℕ
  experience : ℕ
  health : ℚ
  max_health : ℚ
  is_online : Bool
  last_seen : Time
  current_zone : String
  deriving DecidableEq

/-- Row of the `gamesession` table (`ServerModule/src/tables/session.rs`).
The connection handle is an opaque optional value. -/
structure GameSession where
  identity : Identity
  connection_id : Option ℕ
  login_time : Time
  last_activity : Time
  client_version : String
  ip_address : String
  deriving DecidableEq

/-- Row of the `game_items` table (`CustomServerModule/src/mechanics.rs`). -/
structure GameItem where
  item_id : String
  item_name : String
  item_type : String
  description : String
  max_stack_size : ℕ
  value : ℕ
  properties_json : String
  deriving DecidableEq

/-- Row of the `player_inventory` table (`CustomServerModule/src/mechanics.rs`). -/
structure PlayerInventory where
  inventory_id : ℕ
  player_identity : Identity
  item_type : String
  item_id : String
  quantity : ℕ
  slot_index : ℕ
  deriving DecidableEq

/-- Row of the `player_skills` table (`CustomServerModule/src/mechanics.rs`). -/
structure PlayerSkill where
  skill_id : ℕ
  player_identity : Identity
  skill_name : String
  skill_level : ℕ
  experience : ℕ
  last_updated : Time
  deriving DecidableEq

/-- Row of the `npcs` table (`CustomServerModule/src/world.rs` schema, used by
`ai.rs`).  The behaviour state is kept in its serialized string form, exactly
as stored. -/
structure NPC where
  npc_id : ℕ
  name : String
  npc_type : String
  position_x : ℚ
  position_y : ℚ
  position_z : ℚ
  zone_id : ℕ
  health : ℚ
  max_health : ℚ
  ai_state : String
  respawn_time : Time
  deriving DecidableEq

/-- The database state: one list per table touched by the embedded reducers. -/
structure DB where
  game_players : List Player
  gamesessions : List GameSession
  game_items : List GameItem
  player_inventory : List PlayerInventory
  player_skills : List PlayerSkill
  deriving DecidableEq

/-- Reducer context: caller identity and call timestamp supplied by the
substrate, plus the opaque fresh id standing for `generate_unique_id`. -/
structure Ctx where
  sender : Identity
  timestamp : Time
  fresh_id : ℕ
  deriving DecidableEq

/-- `Player::filter_by_identity`. -/
def Player.filter_by_identity (db : DB) (id : Identity) : Option Player :=
  db.game_players.find? (fun p => p.identity == id)

/-- Primary-key `update` on the `player` table: replace the row with the
matching identity. -/
def update_player_row (db : DB) (p : Player) : DB :=
  { db with game_players :=
      db.game_players.map (fun q => if q.identity == p.identity then p else q) }

/-- `Player::update_position` (`tables/table.rs`). -/
def Player.update_position (db : DB) (id : Identity) (x y z yaw : ℚ)
    (ts : Time) : DB :=
  match Player.filter_by_identity db id with
  | some player => update_player_row db
      { player with
        position_x := x,
        position_y := y,
        position_z := z,
        rotation_yaw := yaw,
        last_seen := ts }
  | none => db

/-- `Player::set_online_status` (`tables/table.rs`). -/
def Player.set_online_status (db : DB) (id : Identity) (is_online : Bool)
    (ts : Time) : DB :=
  match Player.filter_by_identity db id with
  | some player => update_player_row db
      { player with is_online := is_online, last_seen := ts }
  | none => db

/-- `GameSession::filter_by_identity`. -/
def GameSession.filter_by_identity (db : DB) (id : Identity) :
    Option GameSession :=
  db.gamesessions.find? (fun s => s.identity == id)

/-- `GameSession::update_activity` (`tables/session.rs`). -/
def GameSession.update_activity (db : DB) (id : Identity) (ts : Time) : DB :=
  match GameSession.filter_by_identity db id with
  | some session =>
      let updated := db.gamesessions.map (fun t =>
        if t.identity == session.identity
        then { session with last_activity := ts } else t)
      { db with gamesessions := updated }
  | none => db

/-- `GameSession::remove_session` (`tables/session.rs`): delete by primary
key. -/
def GameSession.remove_session (db : DB) (id : Identity) : DB :=
  { db with gamesessions := db.gamesessions.filter (fun s => !(s.identity == id)) }

/-- `GameSession::get_inactive_sessions` (`tables/session.rs`). -/
def GameSession.get_inactive_sessions (db : DB) (cutoff_time : Time) :
    List GameSession :=
  db.gamesessions.filter (fun s => decide (s.last_activity < cutoff_time))

/-- One iteration of the loop body of `cleanup_stale_sessions`
(`ServerModule/src/utils/cleanup.rs`): mark the associated player offline,
then remove the session. -/
def cleanup_step (ts : Time) (db : DB) (session : GameSession) : DB :=
  GameSession.remove_session
    (Player.set_online_status db session.identity false ts) session.identity

/-- `cleanup_stale_sessions` (`ServerModule/src/utils/cleanup.rs`).  The Rust
function returns `()`; the pair carries that unit return value alongside the
mutated state. -/
def cleanup_stale_sessions (ctx : Ctx) (db : DB) : Unit × DB :=
  let cutoff_time := ctx.timestamp - INACTIVITY_TIMEOUT_SECONDS
  let inactive_sessions := GameSession.get_inactive_sessions db cutoff_time
  ((), inactive_sessions.foldl (cleanup_step ctx.timestamp) db)

/-- `update_player_position` (`ServerModule/src/reducers/player.rs`). -/
def update_player_position (ctx : Ctx) (x y z : F32) (yaw : ℚ) (db : DB) :
    Except String DB :=
  match Player.filter_by_identity db ctx.sender with
  | none => Except.error "Player not found"
  | some player =>
    match validate_movement player.position_x player.position_y player.position_z
        x y z MAX_MOVEMENT_DISTANCE with
    | Except.error e => Except.error e
    | Except.ok _ =>
      Except.ok (GameSession.update_activity
        (Player.update_position db ctx.sender x.toQ y.toQ z.toQ yaw ctx.timestamp)
        ctx.sender ctx.timestamp)

/-- The `if let Some(new_level)` block of `update_player_stats`. -/
def stats_apply_level (player : Player) (level : Option ℕ) : Player :=
  match level with
  | some new_level => { player with level := new_level }
  | none => player

/-- The `if let Some(new_experience)` block of `update_player_stats`. -/
def stats_apply_experience (player : Player) (experience : Option ℕ) : Player :=
  match experience with
  | some new_experience => { player with experience := new_experience }
  | none => player

/-- The `if let Some(new_health)` block of `update_player_stats`: the new
health is capped at the current max health. -/
def stats_apply_health (player : Player) (health : Option ℚ) : Player :=
  match health with
  | some new_health => { player with health := min new_health player.max_health }
  | none => player

/-- The `if let Some(new_max_health)` block of `update_player_stats`: set the
new max and re-cap health if it now exceeds it. -/
def stats_apply_max_health (player : Player) (max_health : Option ℚ) : Player :=
  match max_health with
  | some new_max_health =>
      let q := { player with max_health := new_max_health }
      if q.max_health < q.health then { q with health := q.max_health } else q
  | none => player

/-- The final `player.last_seen = ctx.timestamp` write of
`update_player_stats`. -/
def stats_refresh_last_seen (player : Player) (ts : Time) : Player :=
  { player with last_seen := ts }

/-- `update_player_stats` (`ServerModule/src/reducers/player.rs`): the four
optional field updates in source order, the `last_seen` refresh, then the
activity refresh. -/
def update_player_stats (ctx : Ctx) (level : Option ℕ) (experience : Option ℕ)
    (health : Option ℚ) (max_health : Option ℚ) (db : DB) : Except String DB :=
  match Player.filter_by_identity db ctx.sender with
  | none => Except.error "Player not found"
  | some player =>
    let p5 := stats_refresh_last_seen
      (stats_apply_max_health
        (stats_apply_health
          (stats_apply_experience (stats_apply_level player level) experience)
          health) max_health) ctx.timestamp
    Except.ok (GameSession.update_activity (update_player_row db p5)
      ctx.sender ctx.timestamp)

/-- `CustomServerModule/src/ai.rs` `AIState`. -/
inductive AIState where
  | Idle
  | Patrolling
  | Chasing
  | Attacking
  | Fleeing
  | Dead
  deriving DecidableEq

/-- `AIState::to_string`. -/
def AIState.to_string : AIState → String
  | .Idle => "idle"
  | .Patrolling => "patrolling"
  | .Chasing => "chasing"
  | .Attacking => "attacking"
  | .Fleeing => "fleeing"
  | .Dead => "dead"

/-- `AIState::from_string`: exact match with a silent default to `Idle`. -/
def AIState.from_string (s : String) : AIState :=
  if s = "idle" then .Idle
  else if s = "patrolling" then .Patrolling
  else if s = "chasing" then .Chasing
  else if s = "attacking" then .Attacking
  else if s = "fleeing" then .Fleeing
  else if s = "dead" then .Dead
  else .Idle

/-- `ai.rs` `is_aggressive_npc`. -/
def is_aggressive_npc (npc_type : String) : Bool :=
  npc_type == "goblin" || npc_type == "orc" || npc_type == "dragon"

/-- Rust `as u64` cast of a nonnegative-or-saturating float value: negative
values saturate to `0`, large values to `u64::MAX`, otherwise truncation. -/
def f32_as_u64 (q : ℚ) : ℕ :=
  if q < 0 then 0 else min (2 ^ 64 - 1) q.floor.toNat

/-- Truncated Taylor approximation standing for `f32::cos`.  The argument in
`get_patrol_position` lies in `[0, 6.28)`; no claim below depends on the
numeric value of a patrol target, only on which fields a tick writes. -/
def cosQ (x : ℚ) : ℚ :=
  1 - x ^ 2 / 2 + x ^ 4 / 24 - x ^ 6 / 720 + x ^ 8 / 40320

/-- Truncated Taylor approximation standing for `f32::sin`. -/
def sinQ (x : ℚ) : ℚ :=
  x - x ^ 3 / 6 + x ^ 5 / 120 - x ^ 7 / 5040

/-- `ai.rs` `get_patrol_position`: position-seeded pseudo-random heading at a
fixed radius of 5. -/
def get_patrol_position (current_x current_y : ℚ) : ℚ × ℚ :=
  let seed := (f32_as_u64 (current_x * 1000) + f32_as_u64 (current_y * 1000)) % 2 ^ 64
  let angle : ℚ := (seed % 628 : ℕ) / 100
  let distance : ℚ := 5
  (current_x + distance * cosQ angle, current_y + distance * sinQ angle)

/-- `ai.rs` `move_towards_target`: step of at most `speed` toward the target,
never overshooting. -/
def move_towards_target (current_x current_y target_x target_y speed : ℚ) :
    ℚ × ℚ :=
  let dx := target_x - current_x
  let dy := target_y - current_y
  let distance := sqrtQ (dx * dx + dy * dy)
  if 0 < distance then
    let move_distance := min speed distance
    (current_x + dx / distance * move_distance,
     current_y + dy / distance * move_distance)
  else (current_x, current_y)

/-- `ai.rs` `move_away_from_target`: step of `speed` away from the threat. -/
def move_away_from_target (current_x current_y threat_x threat_y speed : ℚ) :
    ℚ × ℚ :=
  let dx := current_x - threat_x
  let dy := current_y - threat_y
  let distance := sqrtQ (dx * dx + dy * dy)
  if 0 < distance then
    (current_x + dx / distance * speed, current_y + dy / distance * speed)
  else (current_x + speed, current_y)

/-- `ai.rs` `get_nearby_players`: online players within `radius` (the source
compares `sqrt(dsq) <= radius`; modelled as `dsq <= radius²`). -/
def get_nearby_players (players : List Player) (x y z radius : ℚ) :
    List Player :=
  players.filter (fun player =>
    player.is_online &&
      decide (calculate_distance_sq x y z player.position_x player.position_y
        player.position_z ≤ radius * radius))

/-- The transition table of `update_npc_ai` (`ai.rs` lines 113-167): the next
state, computed from the stored state string, the nearby players, the health
band and (for `Dead`) the elapsed respawn time. -/
def ai_next_state (npc : NPC) (nearby_players : List Player) (now : Time) :
    AIState :=
  match AIState.from_string npc.ai_state with
  | .Idle =>
      if ¬nearby_players.isEmpty then
        if npc.npc_type = "goblin" ∨ npc.npc_type = "orc" then .Chasing
        else if npc.npc_type = "merchant" then .Idle
        else .Patrolling
      else .Patrolling
  | .Patrolling =>
      if ¬nearby_players.isEmpty ∧ is_aggressive_npc npc.npc_type
      then .Chasing else .Patrolling
  | .Chasing =>
      if nearby_players.isEmpty then .Idle
      else if npc.health < npc.max_health * (2 / 10) then .Fleeing
      else .Attacking
  | .Attacking =>
      if nearby_players.isEmpty then .Idle
      else if npc.health < npc.max_health * (2 / 10) then .Fleeing
      else .Attacking
  | .Fleeing =>
      if nearby_players.isEmpty then .Idle else .Fleeing
  | .Dead =>
      if now ≥ npc.respawn_time + 30 then .Idle else .Dead

/-- The in-place health restoration the `Dead` arm of the transition table
performs while computing the next state (the only row mutation the table
itself makes, applied exactly when the respawn timer elapsed). -/
def ai_respawn_heal (npc : NPC) (now : Time) : NPC :=
  if AIState.from_string npc.ai_state = .Dead ∧ now ≥ npc.respawn_time + 30
  then { npc with health := npc.max_health }
  else npc

/-- The state-specific movement side effect applied by `update_npc_ai` when
the state changed (`ai.rs` lines 174-206). -/
def apply_state_movement (npc1 : NPC) (nearby_players : List Player) : NPC :=
  match AIState.from_string npc1.ai_state with
  | .Patrolling =>
      let p := get_patrol_position npc1.position_x npc1.position_y
      { npc1 with position_x := p.1, position_y := p.2 }
  | .Chasing | .Attacking =>
      match nearby_players.head? with
      | some target =>
          let p := move_towards_target npc1.position_x npc1.position_y
            target.position_x target.position_y 2
          { npc1 with position_x := p.1, position_y := p.2 }
      | none => npc1
  | .Fleeing =>
      match nearby_players.head? with
      | some threat =>
          let p := move_away_from_target npc1.position_x npc1.position_y
            threat.position_x threat.position_y 3
          { npc1 with position_x := p.1, position_y := p.2 }
      | none => npc1
  | _ => npc1

/-- `update_npc_ai` (`ai.rs`), acting on the looked-up NPC row: dead check and
early return, transition table (next state plus the `Dead`-arm heal), and —
only when the serialized state string changed — the movement side effect and
write-back.  The perception radius is the fixed `10.0` of the source. -/
def update_npc_ai (players : List Player) (now : Time) (npc0 : NPC) : NPC :=
  if npc0.health ≤ 0 then { npc0 with ai_state := "dead" }
  else
    let nearby_players := get_nearby_players players npc0.position_x
      npc0.position_y npc0.position_z 10
    let new_state := ai_next_state npc0 nearby_players now
    let npc := ai_respawn_heal npc0 now
    if new_state.to_string ≠ npc.ai_state then
      apply_state_movement { npc with ai_state := new_state.to_string }
        nearby_players
    else npc

/-- `attack_npc` (`ai.rs`), acting on the acting player's row and the target
NPC row.  The interaction-range check compares `sqrt(dsq) > 5`; modelled as
`dsq > 25`. -/
def attack_npc (player : Player) (npc : NPC) (damage : ℚ) (now : Time) :
    Except String NPC :=
  if ¬player.is_online then Except.error "Must be online to attack"
  else if 5 * 5 < calculate_distance_sq player.position_x player.position_y
      player.position_z npc.position_x npc.position_y npc.position_z then
    Except.error "Too far away to attack"
  else
    let npc1 := { npc with health := max (npc.health - damage) 0 }
    if npc1.health ≤ 0 then
      Except.ok { npc1 with ai_state := "dead", respawn_time := now }
    else if npc1.ai_state = "idle" then
      Except.ok { npc1 with ai_state := "chasing" }
    else Except.ok npc1

/-- `mechanics.rs` `find_inventory_item`. -/
def find_inventory_item (db : DB) (player_identity : Identity)
    (item_id : String) : Option PlayerInventory :=
  db.player_inventory.find? (fun item =>
    item.player_identity == player_identity && item.item_id == item_id)

/-- Primary-key `update` on the `player_inventory` table. -/
def update_inventory_row (db : DB) (it : PlayerInventory) : DB :=
  let rows := db.player_inventory.map (fun j =>
    if j.inventory_id == it.inventory_id then it else j)
  { db with player_inventory := rows }

/-- Primary-key `delete` on the `player_inventory` table. -/
def delete_inventory_row (db : DB) (inventory_id : ℕ) : DB :=
  { db with player_inventory :=
      db.player_inventory.filter (fun j => !(j.inventory_id == inventory_id)) }

/-- `mechanics.rs` `create_new_inventory_slot`.  The source's while loop walks
`next_slot` up from 0 past every used index and fails once it passes 100; this
is the least unused index among `0..=100`, with `Inventory is full` when all
101 are taken. -/
def create_new_inventory_slot (ctx : Ctx) (player_identity : Identity)
    (item_id : String) (quantity : ℕ) (db : DB) : Except String DB :=
  let used_slots := (db.player_inventory.filter
    (fun item => item.player_identity == player_identity)).map (·.slot_index)
  match (List.range 101).find? (fun n => ¬used_slots.contains n) with
  | none => Except.error "Inventory is full"
  | some next_slot =>
      Except.ok { db with player_inventory := db.player_inventory ++
        [{ inventory_id := ctx.fresh_id, player_identity := player_identity,
           item_type := "item", item_id := item_id, quantity := quantity,
           slot_index := next_slot }] }

/-- `mechanics.rs` `add_item_to_inventory`. -/
def add_item_to_inventory (ctx : Ctx) (player_identity : Identity)
    (item_id : String) (quantity : ℕ) (db : DB) : Except String DB :=
  match db.game_items.find? (fun it => it.item_id == item_id) with
  | none => Except.error "Item not found"
  | some item =>
    match find_inventory_item db player_identity item_id with
    | some existing_item =>
        let new_quantity := existing_item.quantity + quantity
        if new_quantity ≤ item.max_stack_size then
          Except.ok (update_inventory_row db
            { existing_item with quantity := new_quantity })
        else
          let remaining := new_quantity - item.max_stack_size
          let db1 := update_inventory_row db
            { existing_item with quantity := item.max_stack_size }
          if 0 < remaining then
            create_new_inventory_slot ctx player_identity item_id remaining db1
          else Except.ok db1
    | none => create_new_inventory_slot ctx player_identity item_id quantity db

/-- `mechanics.rs` `remove_item_from_inventory`. -/
def remove_item_from_inventory (ctx : Ctx) (item_id : String) (quantity : ℕ)
    (db : DB) : Except String DB :=
  match Player.filter_by_identity db ctx.sender with
  | none => Except.error "Player not found"
  | some player =>
    match find_inventory_item db player.identity item_id with
    | none => Except.error "Item not found in inventory"
    | some inventory_item =>
      if inventory_item.quantity < quantity then
        Except.error "Not enough items in inventory"
      else if inventory_item.quantity = quantity then
        Except.ok (delete_inventory_row db inventory_item.inventory_id)
      else
        Except.ok (update_inventory_row db
          { inventory_item with quantity := inventory_item.quantity - quantity })

/-- Pattern-at-head test on char lists (structural, kernel-computable). -/
def startsWith : List Char → List Char → Bool
  | [], _ => true
  | _ :: _, [] => false
  | p :: ps, c :: cs => p == c && startsWith ps cs

/-- Char-list model of `str::find(pat)` followed by slicing off the match:
the text after the first occurrence of `pat`, if any. -/
def after_first_occurrence (pat : List Char) : List Char → Option (List Char)
  | [] => none
  | c :: cs =>
      if startsWith pat (c :: cs) then some ((c :: cs).drop pat.length)
      else after_first_occurrence pat cs

/-- Char-list model of `str::contains(pat)`. -/
def contains_pattern (pat s : List Char) : Bool :=
  (after_first_occurrence pat s).isSome

/-- Char-list model of `str::trim` (whitespace off both ends). -/
def trimChars (cs : List Char) : List Char :=
  ((cs.dropWhile (fun c => c.isWhitespace)).reverse.dropWhile
    (fun c => c.isWhitespace)).reverse

/-- The slice up to (excluding) the first `,` or closing brace, `none` when
no such terminator occurs — mirroring `rest.find(&[',', '\x7d'])`. -/
def upToTerminator (cs : List Char) : Option (List Char) :=
  if cs.any (fun c => c == ',' || c == '\x7d') then
    some (cs.takeWhile (fun c => !(c == ',' || c == '\x7d')))
  else none

/-- Digit run to a natural number. -/
def digitsToNat (cs : List Char) : ℕ :=
  cs.foldl (fun acc c => acc * 10 + (c.toNat - Char.toNat '0')) 0

/-- Model of `str::parse::<f32>` for the plain decimal literals the item
catalog holds: optional sign, integer digits, optional fractional part.
(The full `f32` grammar also accepts exponents and `inf`/`nan` spellings,
which never occur in the embedded data.) -/
def parse_f32 (cs : List Char) : Option ℚ :=
  let signAndRest : Bool × List Char :=
    match cs with
    | '-' :: cs1 => (true, cs1)
    | '+' :: cs1 => (false, cs1)
    | cs1 => (false, cs1)
  let intPart := signAndRest.2.takeWhile (fun c => c.isDigit)
  let tail := signAndRest.2.drop intPart.length
  let val? : Option ℚ :=
    match tail with
    | [] => if intPart.isEmpty then none else some (digitsToNat intPart : ℚ)
    | '.' :: fracPart =>
        if fracPart.all (fun c => c.isDigit) ∧
            ¬(intPart.isEmpty ∧ fracPart.isEmpty) then
          some ((digitsToNat intPart : ℚ) +
            (digitsToNat fracPart : ℚ) / (10 : ℚ) ^ fracPart.length)
        else none
    | _ => none
  match val? with
  | some v => some (if signAndRest.1 then -v else v)
  | none => none

/-- The inline `heal_amount` extraction of `use_item` (`mechanics.rs` lines
198-210): a `contains` guard, the text after `"heal_amount":`, the slice up to
the first `,` or closing brace, trimmed and parsed. -/
def parse_heal_amount (props : String) : Option ℚ :=
  if contains_pattern "heal_amount".toList props.toList then
    match after_first_occurrence ("\"heal_amount\":".toList) props.toList with
    | none => none
    | some rest =>
      match upToTerminator rest with
      | none => none
      | some heal_str => parse_f32 (trimChars heal_str)
  else none

/-- The heal effect of `use_item`: when a `heal_amount` parses out of the
item's property JSON, add it to the player's health, capped at max health. -/
def apply_consumable_heal (player : Player) (props : String) : Player :=
  match parse_heal_amount props with
  | some heal_amount =>
      { player with health := min (player.health + heal_amount) player.max_health }
  | none => player

/-- Hypothesis predicate for the amended health-bounds claim: the item's
configured heal amount, when one parses, is nonnegative (true of the whole
seeded catalog). -/
def heal_nonneg (props : String) : Bool :=
  match parse_heal_amount props with
  | some h => decide (0 ≤ h)
  | none => true

/-- `mechanics.rs` `use_item`. -/
def use_item (ctx : Ctx) (item_id : String) (db : DB) : Except String DB :=
  match Player.filter_by_identity db ctx.sender with
  | none => Except.error "Player not found"
  | some player =>
    match db.game_items.find? (fun it => it.item_id == item_id) with
    | none => Except.error "Item not found"
    | some item =>
      match find_inventory_item db player.identity item_id with
      | none => Except.error "Item not found in inventory"
      | some _ =>
        if item.item_type = "consumable" then
          let player1 := apply_consumable_heal player item.properties_json
          match remove_item_from_inventory ctx item_id 1 db with
          | Except.error e => Except.error e
          | Except.ok db1 => Except.ok (update_player_row db1 player1)
        else Except.error "This item cannot be used"

/-- `mechanics.rs` `find_player_skill`. -/
def find_player_skill (db : DB) (player_identity : Identity)
    (skill_name : String) : Option PlayerSkill :=
  db.player_skills.find? (fun skill =>
    skill.player_identity == player_identity && skill.skill_name == skill_name)

/-- Primary-key `update` on the `player_skills` table. -/
def update_skill_row (db : DB) (sk : PlayerSkill) : DB :=
  let rows := db.player_skills.map (fun j =>
    if j.skill_id == sk.skill_id then sk else j)
  { db with player_skills := rows }

/-- `mechanics.rs` `calculate_required_experience`:
`((level as f64 * 100.0) * 1.2^level) as u64`, with the `f64` arithmetic
modelled exactly over `ℚ` and the `as u64` cast as the floor. -/
def calculate_required_experience (level : ℕ) : ℕ :=
  (((level * 100 : ℚ) * (6 / 5 : ℚ) ^ level).floor).toNat

/-- `mechanics.rs` `gain_skill_experience`. -/
def gain_skill_experience (ctx : Ctx) (skill_name : String)
    (experience_gained : ℕ) (db : DB) : Except String DB :=
  match Player.filter_by_identity db ctx.sender with
  | none => Except.error "Player not found"
  | some player =>
    match find_player_skill db player.identity skill_name with
    | some skill =>
        let skill1 := { skill with
          experience := skill.experience + experience_gained }
        let required_exp := calculate_required_experience skill1.skill_level
        let skill2 :=
          if required_exp ≤ skill1.experience then
            { skill1 with
              skill_level := skill1.skill_level + 1,
              experience := skill1.experience - required_exp }
          else skill1
        Except.ok (update_skill_row db { skill2 with last_updated := ctx.timestamp })
    | none =>
        Except.ok { db with player_skills := db.player_skills ++
          [{ skill_id := ctx.fresh_id, player_identity := player.identity,
             skill_name := skill_name, skill_level := 1,
             experience := experience_gained, last_updated := ctx.timestamp }] }

deriving instance DecidableEq for Except

/-! Concrete fixtures used by the counterexamples, code-bug evaluations and
witnesses below.  They mirror the seeded data of the source (`join_game`
stats, `create_default_items`). -/

/-- A player as created by `Player::create_player`: origin, 100/100 health,
online. -/
def basePlayer : Player :=
  { identity := 1, username := "alice", position_x := 0, position_y := 0,
    position_z := 0, rotation_yaw := 0, level := 1, experience := 0,
    health := 100, max_health := 100, is_online := true, last_seen := 0,
    current_zone := "default" }

/-- The same player standing 5 units away on the x axis — inside both the
perception radius (10) and the interaction range (5). -/
def nearPlayer : Player := { basePlayer with position_x := 5 }

/-- A live session for `basePlayer` with last activity at time 0. -/
def baseSession : GameSession :=
  { identity := 1, connection_id := none, login_time := 0, last_activity := 0,
    client_version := "1.0", ip_address := "127.0.0.1" }

/-- A goblin as created by `spawn_npc`: 50/50 health, `idle`, at the origin. -/
def goblinNpc : NPC :=
  { npc_id := 1, name := "Gob", npc_type := "goblin", position_x := 0,
    position_y := 0, position_z := 0, zone_id := 1, health := 50,
    max_health := 50, ai_state := "idle", respawn_time := 0 }

/-- A dragon in the same situation (aggressive per `is_aggressive_npc`). -/
def dragonNpc : NPC := { goblinNpc with npc_id := 2, name := "Drake", npc_type := "dragon" }

/-- The goblin after `attack_npc` killed it at time 100. -/
def deadGoblin : NPC :=
  { goblinNpc with health := 0, ai_state := "dead", respawn_time := 100 }

/-- An item with `max_stack_size = 5` (the `ore_iron` default has 50; the
stack size 5 instantiates the claim's concrete numbers). -/
def oreItem : GameItem :=
  { item_id := "ore_iron", item_name := "Iron Ore", item_type := "material",
    description := "Raw iron ore for crafting", max_stack_size := 5,
    value := 10, properties_json := "\x7b\"crafting_material\": true\x7d" }

/-- The seeded health potion: consumable healing 50. -/
def potionItem : GameItem :=
  { item_id := "potion_health", item_name := "Health Potion",
    item_type := "consumable", description := "Restores 50 health",
    max_stack_size := 10, value := 25,
    properties_json := "\x7b\"heal_amount\": 50\x7d" }

/-- Two potions in slot 0 of `basePlayer`'s inventory. -/
def potionSlot : PlayerInventory :=
  { inventory_id := 9, player_identity := 1, item_type := "item",
    item_id := "potion_health", quantity := 2, slot_index := 0 }

/-- A level-1 mining skill with no accumulated experience. -/
def miningSkill : PlayerSkill :=
  { skill_id := 3, player_identity := 1, skill_name := "mining",
    skill_level := 1, experience := 0, last_updated := 0 }

/-- A context for `basePlayer` at time 1000. -/
def ctx0 : Ctx := { sender := 1, timestamp := 1000, fresh_id := 77 }

/-- State for the inventory claims: the catalog holds `oreItem`, the player
holds nothing. -/
def dbInv : DB :=
  { game_players := [basePlayer], gamesessions := [], game_items := [oreItem],
    player_inventory := [], player_skills := [] }

/-- State for the session-cleanup claims: one session, stale at time 1000. -/
def dbStale : DB :=
  { game_players := [basePlayer], gamesessions := [baseSession],
    game_items := [], player_inventory := [], player_skills := [] }

/-- The same state with a session still active at time 1000. -/
def dbFresh : DB :=
  { dbStale with gamesessions := [{ baseSession with last_activity := 900 }] }

/-- State for the skill claims: the player has `miningSkill`. -/
def dbSkill : DB := { dbStale with gamesessions := [], player_skills := [miningSkill] }

/-- State for the fresh-skill claim: the player has no skill records. -/
def dbNoSkill : DB := { dbSkill with player_skills := [] }

/-- State for the use-item part of the health-bounds claim: the player is at
60/100 health and holds two potions. -/
def dbPotion : DB :=
  { game_players := [{ basePlayer with health := 60 }], gamesessions := [],
    game_items := [potionItem], player_inventory := [potionSlot],
    player_skills := [] }

/-- The potion state after one `use_item`: the player healed to full (60 + 50
capped at 100 — the fields of `basePlayer`) and one potion consumed. -/
def dbPotionAfter : DB :=
  { dbPotion with
    game_players := [basePlayer],
    player_inventory := [{ potionSlot with quantity := 1 }] }

/-- The state after `update_player_stats` proposing health 30 on `dbStale`:
health stored as 30, `last_seen` and session activity refreshed. -/
def dbStatsAfter : DB :=
  { dbStale with
    game_players := [{ basePlayer with health := 30, last_seen := 1000 }],
    gamesessions := [{ baseSession with last_activity := 1000 }] }

/-! Helper lemmas. -/

/-- Only `"dead"` deserializes to `Dead`. -/
theorem from_string_eq_dead {s : String} (h : AIState.from_string s = .Dead) :
    s = "dead" := by
  unfold AIState.from_string at h
  split_ifs at h
  simp_all

/-- The `Dead`-arm heal never changes the stored state string. -/
theorem ai_respawn_heal_ai_state (npc : NPC) (now : Time) :
    (ai_respawn_heal npc now).ai_state = npc.ai_state := by
  unfold ai_respawn_heal
  split
  · rfl
  · rfl

/-- The movement side effect never changes the stored state string. -/
theorem apply_state_movement_ai_state (npc1 : NPC) (nearby : List Player) :
    (apply_state_movement npc1 nearby).ai_state = npc1.ai_state := by
  unfold apply_state_movement
  split <;> first
    | rfl
    | (cases nearby.head? <;> rfl)

/-- If the transition table maps the stored state string to itself, the
`Dead`-arm heal leaves the row unchanged: the heal fires only on the way from
`"dead"` to `Idle`, which is a state change. -/
theorem ai_respawn_heal_eq_self (npc : NPC) (nearby : List Player) (now : Time)
    (h : (ai_next_state npc nearby now).to_string = npc.ai_state) :
    ai_respawn_heal npc now = npc := by
  unfold ai_respawn_heal
  split
  · rename_i hcond
    exfalso
    have hdead := from_string_eq_dead hcond.1
    simp only [ai_next_state, hcond.1, if_pos hcond.2, AIState.to_string] at h
    rw [hdead] at h
    exact absurd h (by decide)
  · rfl

/-- C2: an NPC at 50/50 health killed by `attack_npc(60)` from an online
in-range player ends at health 0, state `dead`, respawn timestamp = the call
time — but the tick arriving exactly 30 seconds later leaves it dead with
health 0, because `update_npc_ai` returns early whenever `health <= 0` and
never reaches the `Dead -> Idle` respawn arm.  The claim's respawn half is
contradicted by the unreachable respawn branch the source itself contains. -/
theorem C2_dead_npc_never_respawns :
    attack_npc basePlayer goblinNpc 60 100 = Except.ok deadGoblin ∧
    deadGoblin.health = 0 ∧
    deadGoblin.ai_state = "dead" ∧
    deadGoblin.respawn_time = 100 ∧
    (130 : Time) ≥ deadGoblin.respawn_time + 30 ∧
    update_npc_ai [basePlayer] 130 deadGoblin = deadGoblin ∧
    (update_npc_ai [basePlayer] 130 deadGoblin).ai_state ≠ "idle" ∧
    (update_npc_ai [basePlayer] 130 deadGoblin).health ≠ deadGoblin.max_health := by
  have hattack : attack_npc basePlayer goblinNpc 60 100 = Except.ok deadGoblin := by
    norm_num [attack_npc, basePlayer, goblinNpc, deadGoblin, calculate_distance_sq]
  have htick : update_npc_ai [basePlayer] 130 deadGoblin = deadGoblin := by
    norm_num [update_npc_ai, deadGoblin, goblinNpc]
  refine ⟨hattack, by decide, by decide, by decide, by decide, htick, ?_, ?_⟩
  · rw [htick]; decide
  · rw [htick]; decide

/-- C3 counterexample: a dragon is aggressive by the source's own
`is_aggressive_npc`, yet an idle dragon with an online player inside the
perception radius transitions to `patrolling`, not `chasing` — the `Idle`
arm hardcodes `"goblin" | "orc"`. -/
theorem C3_counterexample_dragon_patrols :
    is_aggressive_npc "dragon" = true ∧
    dragonNpc.ai_state = "idle" ∧
    (get_nearby_players [nearPlayer] dragonNpc.position_x dragonNpc.position_y
      dragonNpc.position_z 10).isEmpty = false ∧
    (update_npc_ai [nearPlayer] 0 dragonNpc).ai_state = "patrolling" := by
  refine ⟨by decide, by decide, ?_, ?_⟩
  · norm_num [get_nearby_players, calculate_distance_sq, dragonNpc, goblinNpc,
      nearPlayer, basePlayer, List.filter]
  · norm_num [update_npc_ai, ai_next_state, ai_respawn_heal, apply_state_movement,
      get_nearby_players, calculate_distance_sq, dragonNpc, goblinNpc,
      nearPlayer, basePlayer, AIState.from_string, AIState.to_string,
      List.filter]
    decide

/-- C3 (amended): from `idle` with positive health, a tick moves the NPC to
`chasing` only for the goblin and orc types; merchants stay `idle`; every
other type — including the aggressive dragon — and the no-players case go to
`patrolling`. -/
theorem C3_idle_transition (players : List Player) (now : Time) (npc : NPC)
    (h1 : npc.ai_state = "idle") (h2 : 0 < npc.health) :
    (update_npc_ai players now npc).ai_state =
      (if (get_nearby_players players npc.position_x npc.position_y
            npc.position_z 10).isEmpty = true then "patrolling"
       else if npc.npc_type = "goblin" ∨ npc.npc_type = "orc" then "chasing"
       else if npc.npc_type = "merchant" then "idle"
       else "patrolling") := by
  have hne : ¬npc.health ≤ 0 := not_le.mpr h2
  have hfrom : AIState.from_string npc.ai_state = .Idle := by
    rw [h1]; decide
  simp only [update_npc_ai, if_neg hne, ai_next_state, ai_respawn_heal, hfrom]
  by_cases hemp : (get_nearby_players players npc.position_x npc.position_y
      npc.position_z 10).isEmpty
  · simp [hemp, h1, apply_state_movement_ai_state, AIState.to_string]
  · by_cases hgob : npc.npc_type = "goblin" ∨ npc.npc_type = "orc"
    · simp [hemp, hgob, h1, apply_state_movement_ai_state, AIState.to_string]
    · by_cases hmer : npc.npc_type = "merchant"
      · simp [hemp, hgob, hmer, h1, AIState.to_string]
      · simp [hemp, hgob, hmer, h1, apply_state_movement_ai_state, AIState.to_string]

/-- C3 witness: an idle goblin with a player 5 units away does chase. -/
theorem C3_idle_transition_witness :
    goblinNpc.ai_state = "idle" ∧ 0 < goblinNpc.health ∧
    (update_npc_ai [nearPlayer] 0 goblinNpc).ai_state =
      (if (get_nearby_players [nearPlayer] goblinNpc.position_x
            goblinNpc.position_y goblinNpc.position_z 10).isEmpty = true
       then "patrolling"
       else if goblinNpc.npc_type = "goblin" ∨ goblinNpc.npc_type = "orc"
       then "chasing"
       else if goblinNpc.npc_type = "merchant" then "idle"
       else "patrolling") ∧
    (update_npc_ai [nearPlayer] 0 goblinNpc).ai_state = "chasing" := by
  refine ⟨by decide, by decide,
    C3_idle_transition [nearPlayer] 0 goblinNpc (by decide) (by decide), ?_⟩
  norm_num [update_npc_ai, ai_next_state, ai_respawn_heal, apply_state_movement,
    get_nearby_players, calculate_distance_sq, goblinNpc, nearPlayer,
    basePlayer, AIState.from_string, AIState.to_string, move_towards_target,
    sqrtQ, List.filter]
  decide

/-- C6 counterexample: an idle goblin with a player 5 units away.  The first
tick moves it to `chasing` (one movement step); the second tick observes the
same nearby-player set and the same health, yet changes the state again
(`chasing -> attacking`) and applies a second movement step. -/
theorem C6_counterexample_second_transition :
    (get_nearby_players [nearPlayer]
        (update_npc_ai [nearPlayer] 0 goblinNpc).position_x
        (update_npc_ai [nearPlayer] 0 goblinNpc).position_y
        (update_npc_ai [nearPlayer] 0 goblinNpc).position_z 10 =
      get_nearby_players [nearPlayer] goblinNpc.position_x goblinNpc.position_y
        goblinNpc.position_z 10) ∧
    (update_npc_ai [nearPlayer] 0 goblinNpc).health = goblinNpc.health ∧
    (update_npc_ai [nearPlayer] 0 goblinNpc).max_health = goblinNpc.max_health ∧
    (update_npc_ai [nearPlayer] 0 (update_npc_ai [nearPlayer] 0 goblinNpc)).ai_state ≠
      (update_npc_ai [nearPlayer] 0 goblinNpc).ai_state ∧
    (update_npc_ai [nearPlayer] 0 (update_npc_ai [nearPlayer] 0 goblinNpc)).position_x ≠
      (update_npc_ai [nearPlayer] 0 goblinNpc).position_x := by
  have h1 : update_npc_ai [nearPlayer] 0 goblinNpc =
      { goblinNpc with position_x := 2, ai_state := "chasing" } := by
    norm_num [update_npc_ai, ai_next_state, ai_respawn_heal, apply_state_movement,
      get_nearby_players, calculate_distance_sq, goblinNpc, nearPlayer,
      basePlayer, AIState.from_string, AIState.to_string, move_towards_target,
      sqrtQ, List.filter]
    decide
  have h2 : update_npc_ai [nearPlayer] 0
      { goblinNpc with position_x := 2, ai_state := "chasing" } =
      { goblinNpc with position_x := 4, ai_state := "attacking" } := by
    norm_num [update_npc_ai, ai_next_state, ai_respawn_heal, apply_state_movement,
      get_nearby_players, calculate_distance_sq, goblinNpc, nearPlayer,
      basePlayer, AIState.from_string, AIState.to_string, move_towards_target,
      sqrtQ, List.filter]
    decide
  rw [h1, h2]
  refine ⟨?_, by decide, by decide, by decide, by norm_num⟩
  norm_num [get_nearby_players, calculate_distance_sq, goblinNpc, nearPlayer,
    basePlayer, List.filter]

/-- C6 (amended): a tick that does not change the serialized state changes
nothing at all — no movement — so repeating the tick under the same
conditions is a no-op; idempotence holds exactly from the states the
transition table maps to themselves. -/
theorem C6_tick_fixed_point (players : List Player) (now : Time) (npc : NPC)
    (h1 : 0 < npc.health)
    (h2 : (update_npc_ai players now npc).ai_state = npc.ai_state) :
    update_npc_ai players now npc = npc ∧
    update_npc_ai players now (update_npc_ai players now npc) =
      update_npc_ai players now npc := by
  have hne : ¬npc.health ≤ 0 := not_le.mpr h1
  have key : update_npc_ai players now npc = npc := by
    simp only [update_npc_ai, if_neg hne] at h2 ⊢
    by_cases hch : (ai_next_state npc (get_nearby_players players npc.position_x
        npc.position_y npc.position_z 10) now).to_string ≠
        (ai_respawn_heal npc now).ai_state
    · rw [if_pos hch] at h2
      rw [apply_state_movement_ai_state] at h2
      refine absurd ?_ hch
      rw [ai_respawn_heal_ai_state]
      exact h2
    · rw [if_neg hch]
      push_neg at hch
      exact ai_respawn_heal_eq_self npc (get_nearby_players players
        npc.position_x npc.position_y npc.position_z 10) now
        (hch.trans (ai_respawn_heal_ai_state npc now))
  exact ⟨key, by rw [key]; exact key⟩

/-- C6 witness: a patrolling goblin with nobody nearby satisfies the
fixed-point hypothesis, and the tick is a no-op on it. -/
theorem C6_tick_fixed_point_witness :
    0 < ({ goblinNpc with ai_state := "patrolling" } : NPC).health ∧
    (update_npc_ai [] 0 { goblinNpc with ai_state := "patrolling" }).ai_state =
      ({ goblinNpc with ai_state := "patrolling" } : NPC).ai_state ∧
    update_npc_ai [] 0 { goblinNpc with ai_state := "patrolling" } =
      { goblinNpc with ai_state := "patrolling" } :=
  ⟨by decide, by decide,
    (C6_tick_fixed_point [] 0 { goblinNpc with ai_state := "patrolling" }
      (by decide) (by decide)).1⟩

/-- C9: any damage from an online player within the interaction range that
leaves an `idle` NPC above 0 health flips its state to `chasing`. -/
theorem C9_damage_provokes_idle_npc (player : Player) (npc : NPC) (damage : ℚ)
    (now : Time)
    (hon : player.is_online = true)
    (hrange : calculate_distance_sq player.position_x player.position_y
      player.position_z npc.position_x npc.position_y npc.position_z ≤ 5 * 5)
    (hidle : npc.ai_state = "idle") (_hdz : damage ≠ 0)
    (hsurv : 0 < npc.health - damage) :
    attack_npc player npc damage now =
      Except.ok { npc with health := npc.health - damage, ai_state := "chasing" } := by
  have hmax : max (npc.health - damage) 0 = npc.health - damage :=
    max_eq_left (le_of_lt hsurv)
  unfold attack_npc
  rw [if_neg (not_not_intro hon)]
  rw [if_neg (not_lt.mpr hrange)]
  simp only [hmax]
  rw [if_neg (not_le.mpr hsurv), if_pos hidle]

/-- C9 witness: 10 damage from `basePlayer` at distance 0 onto the idle
goblin leaves 40 health and the `chasing` state. -/
theorem C9_damage_provokes_idle_npc_witness :
    basePlayer.is_online = true ∧
    calculate_distance_sq basePlayer.position_x basePlayer.position_y
      basePlayer.position_z goblinNpc.position_x goblinNpc.position_y
      goblinNpc.position_z ≤ 5 * 5 ∧
    goblinNpc.ai_state = "idle" ∧ (10 : ℚ) ≠ 0 ∧ 0 < goblinNpc.health - 10 ∧
    attack_npc basePlayer goblinNpc 10 0 =
      Except.ok { goblinNpc with health := goblinNpc.health - 10, ai_state := "chasing" } :=
  ⟨by decide, by norm_num [calculate_distance_sq, basePlayer, goblinNpc],
    by decide, by norm_num, by norm_num [goblinNpc],
    C9_damage_provokes_idle_npc basePlayer goblinNpc 10 0 (by decide)
      (by norm_num [calculate_distance_sq, basePlayer, goblinNpc])
      (by decide) (by norm_num) (by norm_num [goblinNpc])⟩

/-- C1: with no existing slot, `add_item_to_inventory` puts the whole
quantity into one new slot: adding 7 of an item with `max_stack_size = 5` to
an empty inventory yields a single slot of quantity 7 — no split into 5 + 2,
violating the stack bound the merge path enforces. -/
theorem C1_fresh_add_is_not_split :
    add_item_to_inventory ctx0 1 "ore_iron" 7 dbInv =
      Except.ok { dbInv with player_inventory :=
        [{ inventory_id := 77, player_identity := 1, item_type := "item",
           item_id := "ore_iron", quantity := 7, slot_index := 0 }] } ∧
    oreItem.max_stack_size = 5 ∧
    ¬(7 ≤ oreItem.max_stack_size) := by
  decide

/-- C10: a first experience gain creates the skill record at level 1 holding
the full amount, with no level-up on the creation path. -/
theorem C10_fresh_skill_holds_full_amount (ctx : Ctx) (skill_name : String)
    (amount : ℕ) (db : DB) (player : Player)
    (hp : Player.filter_by_identity db ctx.sender = some player)
    (hs : find_player_skill db player.identity skill_name = none) :
    gain_skill_experience ctx skill_name amount db =
      Except.ok { db with player_skills := db.player_skills ++
        [{ skill_id := ctx.fresh_id, player_identity := player.identity,
           skill_name := skill_name, skill_level := 1, experience := amount,
           last_updated := ctx.timestamp }] } := by
  simp only [gain_skill_experience, hp, hs]

/-- C10 witness: a 150-experience first gain (above the level-1 requirement
of 120) is stored whole at level 1. -/
theorem C10_fresh_skill_holds_full_amount_witness :
    Player.filter_by_identity dbNoSkill 1 = some basePlayer ∧
    find_player_skill dbNoSkill 1 "mining" = none ∧
    gain_skill_experience ctx0 "mining" 150 dbNoSkill =
      Except.ok { dbNoSkill with player_skills := dbNoSkill.player_skills ++
        [{ skill_id := ctx0.fresh_id, player_identity := basePlayer.identity,
           skill_name := "mining", skill_level := 1, experience := 150,
           last_updated := ctx0.timestamp }] } ∧
    calculate_required_experience 1 ≤ 150 :=
  ⟨by decide, by decide,
    C10_fresh_skill_holds_full_amount ctx0 "mining" 150 dbNoSkill basePlayer
      (by decide) (by decide),
    by norm_num [calculate_required_experience, Rat.floor_def', Int.toNat_ofNat]⟩

/-- C7: on an existing skill record, `gain_skill_experience` adds the amount
to the accumulated experience and, exactly when the total reaches
`required = floor(level * 100 * 1.2^level)`, increments the level once and
subtracts `required` once (no cascading). -/
theorem C7_gain_experience_single_level (ctx : Ctx) (skill_name : String)
    (amount : ℕ) (db : DB) (player : Player) (skill : PlayerSkill)
    (hp : Player.filter_by_identity db ctx.sender = some player)
    (hs : find_player_skill db player.identity skill_name = some skill) :
    (calculate_required_experience skill.skill_level ≤ skill.experience + amount →
      gain_skill_experience ctx skill_name amount db =
        Except.ok (update_skill_row db
          { skill with
            skill_level := skill.skill_level + 1,
            experience := skill.experience + amount -
              calculate_required_experience skill.skill_level,
            last_updated := ctx.timestamp })) ∧
    (¬(calculate_required_experience skill.skill_level ≤ skill.experience + amount) →
      gain_skill_experience ctx skill_name amount db =
        Except.ok (update_skill_row db
          { skill with
            experience := skill.experience + amount,
            last_updated := ctx.timestamp })) := by
  constructor
  · intro h
    simp only [gain_skill_experience, hp, hs, if_pos h]
  · intro h
    simp only [gain_skill_experience, hp, hs, if_neg h]

/-- C7 witness: a level-1 skill at 0 experience gaining 125 (the requirement
being `floor(100 * 1.2) = 120`) becomes level 2 with residual experience 5. -/
theorem C7_gain_experience_single_level_witness :
    Player.filter_by_identity dbSkill 1 = some basePlayer ∧
    find_player_skill dbSkill 1 "mining" = some miningSkill ∧
    calculate_required_experience miningSkill.skill_level ≤
      miningSkill.experience + 125 ∧
    gain_skill_experience ctx0 "mining" 125 dbSkill =
      Except.ok (update_skill_row dbSkill
        { miningSkill with
          skill_level := miningSkill.skill_level + 1,
          experience := miningSkill.experience + 125 -
            calculate_required_experience miningSkill.skill_level,
          last_updated := ctx0.timestamp }) ∧
    calculate_required_experience 1 = 120 ∧
    miningSkill.skill_level + 1 = 2 ∧
    miningSkill.experience + 125 - calculate_required_experience miningSkill.skill_level = 5 :=
  ⟨by decide, by decide,
    by norm_num [calculate_required_experience, miningSkill, Rat.floor_def', Int.toNat_ofNat],
    (C7_gain_experience_single_level ctx0 "mining" 125 dbSkill basePlayer
      miningSkill (by decide) (by decide)).1
      (by norm_num [calculate_required_experience, miningSkill, Rat.floor_def', Int.toNat_ofNat]),
    by
      norm_num [calculate_required_experience, Rat.floor_def', Int.toNat_ofNat]
      decide,
    by decide,
    by
      norm_num [calculate_required_experience, miningSkill, Rat.floor_def',
        Int.toNat_ofNat]
      decide⟩

/-- One cleanup iteration touches only the targeted identity's session. -/
theorem cleanup_step_sessions (ts : Time) (db : DB) (s : GameSession) :
    (cleanup_step ts db s).gamesessions =
      db.gamesessions.filter (fun t => !(t.identity == s.identity)) := by
  unfold cleanup_step GameSession.remove_session Player.set_online_status
  split <;> rfl

/-- One cleanup iteration marks every player row of the targeted identity
offline. -/
theorem cleanup_step_sets_offline (ts : Time) (db : DB) (s : GameSession) :
    ∀ p ∈ (cleanup_step ts db s).game_players,
      p.identity = s.identity → p.is_online = false := by
  intro p hp hid
  unfold cleanup_step GameSession.remove_session at hp
  simp only [] at hp
  unfold Player.set_online_status at hp
  split at hp
  · rename_i player hfind
    simp only [update_player_row, List.mem_map] at hp
    obtain ⟨q, _, hq⟩ := hp
    have hpl : player.identity = s.identity := by
      have := List.find?_some hfind
      simpa using this
    by_cases hqid : q.identity == player.identity
    · rw [if_pos hqid] at hq
      rw [← hq]
    · rw [if_neg hqid] at hq
      exfalso
      apply hqid
      rw [hq, hid, ← hpl]
      exact beq_self_eq_true player.identity
  · rename_i hfind
    have := List.find?_eq_none.mp hfind p hp
    simp only [beq_iff_eq] at this
    exact absurd hid this

/-- One cleanup iteration never puts a player of identity `i` back online. -/
theorem cleanup_step_preserves_offline (ts : Time) (db : DB) (s : GameSession)
    (i : Identity)
    (h : ∀ p ∈ db.game_players, p.identity = i → p.is_online = false) :
    ∀ p ∈ (cleanup_step ts db s).game_players,
      p.identity = i → p.is_online = false := by
  intro p hp hid
  unfold cleanup_step GameSession.remove_session at hp
  simp only [] at hp
  unfold Player.set_online_status at hp
  split at hp
  · rename_i player hfind
    simp only [update_player_row, List.mem_map] at hp
    obtain ⟨q, hqmem, hq⟩ := hp
    by_cases hqid : q.identity == player.identity
    · rw [if_pos hqid] at hq
      rw [← hq]
    · rw [if_neg hqid] at hq
      rw [← hq]
      exact h q hqmem (by rw [hq]; exact hid)
  · exact h p hp hid

/-- The cleanup fold removes exactly the sessions whose identity occurs in
the processed list. -/
theorem cleanup_fold_sessions (ts : Time) (l : List GameSession) (db : DB) :
    (l.foldl (cleanup_step ts) db).gamesessions =
      db.gamesessions.filter
        (fun t => !(l.any (fun s => t.identity == s.identity))) := by
  induction l generalizing db with
  | nil => simp
  | cons a l ih =>
      rw [List.foldl_cons, ih, cleanup_step_sessions, List.filter_filter]
      apply List.filter_congr
      intro t _
      simp only [List.any_cons, Bool.not_or]
      rw [Bool.and_comm]

/-- The cleanup fold never puts a player of identity `i` back online. -/
theorem cleanup_fold_preserves_offline (ts : Time) (l : List GameSession)
    (db : DB) (i : Identity)
    (h : ∀ p ∈ db.game_players, p.identity = i → p.is_online = false) :
    ∀ p ∈ (l.foldl (cleanup_step ts) db).game_players,
      p.identity = i → p.is_online = false := by
  induction l generalizing db with
  | nil => exact h
  | cons a l ih =>
      rw [List.foldl_cons]
      exact ih (cleanup_step ts db a) (cleanup_step_preserves_offline ts db a i h)

/-- After the cleanup fold, every player whose identity occurs in the
processed list is offline. -/
theorem cleanup_fold_sets_offline (ts : Time) (l : List GameSession) (db : DB)
    (s : GameSession) (hs : s ∈ l) :
    ∀ p ∈ (l.foldl (cleanup_step ts) db).game_players,
      p.identity = s.identity → p.is_online = false := by
  induction l generalizing db with
  | nil => cases hs
  | cons a l ih =>
      rw [List.foldl_cons]
      rcases List.mem_cons.mp hs with h | h
      · subst h
        exact cleanup_fold_preserves_offline ts l (cleanup_step ts db s)
          s.identity (cleanup_step_sets_offline ts db s)
      · exact ih (cleanup_step ts db a) h

/-- C5 counterexample: `cleanup_stale_sessions` returns `()` whatever it
removed — the same return value for a pass that removes one session and a
pass that removes none — so it does not return the count of sessions
removed. -/
theorem C5_counterexample_no_count_returned :
    (cleanup_stale_sessions ctx0 dbStale).1 = (cleanup_stale_sessions ctx0 dbFresh).1 ∧
    dbStale.gamesessions.length -
      ((cleanup_stale_sessions ctx0 dbStale).2).gamesessions.length = 1 ∧
    dbFresh.gamesessions.length -
      ((cleanup_stale_sessions ctx0 dbFresh).2).gamesessions.length = 0 := by
  decide

/-- C5 (amended): `cleanup_stale_sessions` removes exactly the sessions whose
last activity is strictly older than `now - 300`, marks every such session's
player offline in the same pass, leaves every other session in place, and
returns no value. -/
theorem C5_cleanup_stale_sessions_spec (ctx : Ctx) (db : DB)
    (hnd : (db.gamesessions.map (fun s => s.identity)).Nodup) :
    (∀ s ∈ db.gamesessions,
        s.last_activity < ctx.timestamp - INACTIVITY_TIMEOUT_SECONDS →
        s ∉ ((cleanup_stale_sessions ctx db).2).gamesessions ∧
        ∀ p ∈ ((cleanup_stale_sessions ctx db).2).game_players,
          p.identity = s.identity → p.is_online = false) ∧
    (∀ s ∈ db.gamesessions,
        ¬(s.last_activity < ctx.timestamp - INACTIVITY_TIMEOUT_SECONDS) →
        s ∈ ((cleanup_stale_sessions ctx db).2).gamesessions) ∧
    (∀ s ∈ ((cleanup_stale_sessions ctx db).2).gamesessions,
        s ∈ db.gamesessions ∧
        ¬(s.last_activity < ctx.timestamp - INACTIVITY_TIMEOUT_SECONDS)) := by
  have hres : ((cleanup_stale_sessions ctx db).2).gamesessions =
      db.gamesessions.filter (fun t =>
        !((GameSession.get_inactive_sessions db
            (ctx.timestamp - INACTIVITY_TIMEOUT_SECONDS)).any
          (fun s => t.identity == s.identity))) := by
    unfold cleanup_stale_sessions
    exact cleanup_fold_sessions ctx.timestamp _ db
  have hmem_inactive : ∀ s, s ∈ GameSession.get_inactive_sessions db
      (ctx.timestamp - INACTIVITY_TIMEOUT_SECONDS) ↔
      s ∈ db.gamesessions ∧
        s.last_activity < ctx.timestamp - INACTIVITY_TIMEOUT_SECONDS := by
    intro s
    unfold GameSession.get_inactive_sessions
    simp [List.mem_filter]
  refine ⟨?_, ?_, ?_⟩
  · intro s hs hstale
    constructor
    · intro hcon
      rw [hres] at hcon
      have := (List.mem_filter.mp hcon).2
      simp only [Bool.not_eq_true', List.any_eq_false] at this
      have hself := this s ((hmem_inactive s).mpr ⟨hs, hstale⟩)
      simp at hself
    · intro p hp hid
      refine cleanup_fold_sets_offline ctx.timestamp _ db s
        ((hmem_inactive s).mpr ⟨hs, hstale⟩) p ?_ hid
      exact hp
  · intro s hs hfresh
    rw [hres]
    refine List.mem_filter.mpr ⟨hs, ?_⟩
    simp only [Bool.not_eq_true', List.any_eq_false]
    intro t ht
    have htdb := ((hmem_inactive t).mp ht).1
    have htstale := ((hmem_inactive t).mp ht).2
    simp only [beq_iff_eq]
    intro hideq
    have : s = t := List.inj_on_of_nodup_map hnd hs htdb hideq
    rw [this] at hfresh
    exact hfresh htstale
  · intro s hs
    rw [hres] at hs
    have hsdb := (List.mem_filter.mp hs).1
    refine ⟨hsdb, ?_⟩
    intro hstale
    have := (List.mem_filter.mp hs).2
    simp only [Bool.not_eq_true', List.any_eq_false] at this
    have hself := this s ((hmem_inactive s).mpr ⟨hsdb, hstale⟩)
    simp at hself

/-- C5 witness: at time 1000 with a 300-second timeout, the session last
active at time 0 is removed and its player is offline afterwards. -/
theorem C5_cleanup_stale_sessions_spec_witness :
    (dbStale.gamesessions.map (fun s => s.identity)).Nodup ∧
    baseSession ∈ dbStale.gamesessions ∧
    baseSession.last_activity < ctx0.timestamp - INACTIVITY_TIMEOUT_SECONDS ∧
    baseSession ∉ ((cleanup_stale_sessions ctx0 dbStale).2).gamesessions :=
  ⟨by decide, by decide, by decide,
    ((C5_cleanup_stale_sessions_spec ctx0 dbStale (by decide)).1 baseSession
      (by decide) (by decide)).1⟩

/-- C8: for an existing player, `update_player_position` succeeds exactly
when the squared movement delta does not exceed `MAX_MOVEMENT_DISTANCE`
squared (equivalently: the Euclidean distance does not exceed the ceiling of
50) and every proposed coordinate is finite; on success it commits the new
position and yaw and refreshes session activity; on failure it returns the
error alone, leaving the stored state untouched.  The second conjunct ties
the `F32` comparison to the rational squared distance for finite inputs. -/
theorem C8_update_position_validation (ctx : Ctx) (x y z : F32) (yaw : ℚ)
    (db : DB) (player : Player)
    (hp : Player.filter_by_identity db ctx.sender = some player) :
    ((update_player_position ctx x y z yaw db).isOk = true ↔
      ((F32.add (F32.add ((x.subQ player.position_x).sq)
          ((y.subQ player.position_y).sq)) ((z.subQ player.position_z).sq)).gtQ
        (MAX_MOVEMENT_DISTANCE * MAX_MOVEMENT_DISTANCE) = false ∧
       x.isFinite = true ∧ y.isFinite = true ∧ z.isFinite = true)) ∧
    (∀ qx qy qz : ℚ, x = F32.fin qx → y = F32.fin qy → z = F32.fin qz →
      ((F32.add (F32.add ((x.subQ player.position_x).sq)
          ((y.subQ player.position_y).sq)) ((z.subQ player.position_z).sq)).gtQ
        (MAX_MOVEMENT_DISTANCE * MAX_MOVEMENT_DISTANCE) = true ↔
       MAX_MOVEMENT_DISTANCE * MAX_MOVEMENT_DISTANCE <
         calculate_distance_sq player.position_x player.position_y
           player.position_z qx qy qz)) ∧
    ((update_player_position ctx x y z yaw db).isOk = true →
      update_player_position ctx x y z yaw db =
        Except.ok (GameSession.update_activity
          (Player.update_position db ctx.sender x.toQ y.toQ z.toQ yaw
            ctx.timestamp) ctx.sender ctx.timestamp)) := by
  refine ⟨?_, ?_, ?_⟩
  · simp only [update_player_position, validate_movement, hp]
    by_cases hgt : (F32.add (F32.add ((x.subQ player.position_x).sq)
        ((y.subQ player.position_y).sq)) ((z.subQ player.position_z).sq)).gtQ
        (MAX_MOVEMENT_DISTANCE * MAX_MOVEMENT_DISTANCE) = true
    · simp [hgt, Except.isOk, Except.toBool]
    · by_cases hfin : x.isFinite = true ∧ y.isFinite = true ∧ z.isFinite = true
      · simp [hgt, hfin, Except.isOk, Except.toBool]
      · simp [hgt, hfin, Except.isOk, Except.toBool]
  · rintro qx qy qz rfl rfl rfl
    simp only [F32.subQ, F32.sq, F32.add, F32.gtQ, decide_eq_true_eq,
      calculate_distance_sq, pow_two]
  · simp only [update_player_position, validate_movement, hp]
    by_cases hgt : (F32.add (F32.add ((x.subQ player.position_x).sq)
        ((y.subQ player.position_y).sq)) ((z.subQ player.position_z).sq)).gtQ
        (MAX_MOVEMENT_DISTANCE * MAX_MOVEMENT_DISTANCE) = true
    · simp [hgt, Except.isOk, Except.toBool]
    · by_cases hfin : x.isFinite = true ∧ y.isFinite = true ∧ z.isFinite = true
      · simp [hgt, hfin]
      · simp [hgt, hfin, Except.isOk, Except.toBool]

/-- C8 witness: from the origin, a proposed position at distance 51 is
rejected and one at distance 49 is accepted. -/
theorem C8_update_position_validation_witness :
    Player.filter_by_identity dbStale 1 = some basePlayer ∧
    ((update_player_position ctx0 (F32.fin 51) (F32.fin 0) (F32.fin 0) 0
        dbStale).isOk = true ↔
      ((F32.add (F32.add (((F32.fin 51).subQ basePlayer.position_x).sq)
          (((F32.fin 0).subQ basePlayer.position_y).sq))
          (((F32.fin 0).subQ basePlayer.position_z).sq)).gtQ
        (MAX_MOVEMENT_DISTANCE * MAX_MOVEMENT_DISTANCE) = false ∧
       (F32.fin 51).isFinite = true ∧ (F32.fin 0).isFinite = true ∧
       (F32.fin 0).isFinite = true)) ∧
    (update_player_position ctx0 (F32.fin 51) (F32.fin 0) (F32.fin 0) 0
      dbStale).isOk = false ∧
    (update_player_position ctx0 (F32.fin 49) (F32.fin 0) (F32.fin 0) 0
      dbStale).isOk = true :=
  ⟨by decide,
    (C8_update_position_validation ctx0 (F32.fin 51) (F32.fin 0) (F32.fin 0) 0
      dbStale basePlayer (by decide)).1,
    by
      norm_num [update_player_position, validate_movement, Player.filter_by_identity,
        dbStale, basePlayer, ctx0, F32.subQ, F32.sq, F32.add, F32.gtQ, F32.isFinite,
        MAX_MOVEMENT_DISTANCE, Except.isOk, Except.toBool],
    by
      norm_num [update_player_position, validate_movement, Player.filter_by_identity,
        dbStale, basePlayer, ctx0, F32.subQ, F32.sq, F32.add, F32.gtQ, F32.isFinite,
        MAX_MOVEMENT_DISTANCE, Except.isOk, Except.toBool]⟩

/-- Replacing the found row by a row with the same identity moves `find?` to
the replacement. -/
theorem find?_update_row (l : List Player) (i : Identity) (p p1 : Player)
    (hf : l.find? (fun q => q.identity == i) = some p)
    (hid : p1.identity = p.identity) :
    (l.map (fun q => if q.identity == p1.identity then p1 else q)).find?
      (fun q => q.identity == i) = some p1 := by
  have hpi : (p.identity == i) = true := by
    have h := List.find?_some hf
    simpa using h
  induction l with
  | nil => simp at hf
  | cons a l ih =>
      rw [List.map_cons]
      by_cases ha : (a.identity == i) = true
      · rw [@List.find?_cons_of_pos Player (fun q => q.identity == i) a l ha] at hf
        injection hf with hf
        subst hf
        have hb : (a.identity == p1.identity) = true := by
          rw [hid]
          exact beq_self_eq_true a.identity
        rw [if_pos hb]
        refine List.find?_cons_of_pos _ ?_
        rw [hid]
        exact hpi
      · rw [@List.find?_cons_of_neg Player (fun q => q.identity == i) a l ha] at hf
        have hb : ¬(a.identity == p1.identity) = true := by
          intro hcon
          apply ha
          rw [beq_iff_eq] at hcon hpi ⊢
          rw [hcon, hid, hpi]
        rw [if_neg hb]
        rw [@List.find?_cons_of_neg Player (fun q => q.identity == i) a _ ha]
        exact ih hf

/-- `remove_item_from_inventory` never touches the player table. -/
theorem remove_item_players (ctx : Ctx) (item_id : String) (quantity : ℕ)
    (db db1 : DB)
    (h : remove_item_from_inventory ctx item_id quantity db = Except.ok db1) :
    db1.game_players = db.game_players := by
  unfold remove_item_from_inventory at h
  split at h
  · cases h
  · split at h
    · cases h
    · split_ifs at h with hlt heq
      · injection h with h
        rw [← h]
        rfl
      · injection h with h
        rw [← h]
        rfl

/-- `GameSession.update_activity` never touches the player table. -/
theorem update_activity_players (db : DB) (id : Identity) (ts : Time) :
    (GameSession.update_activity db id ts).game_players = db.game_players := by
  unfold GameSession.update_activity
  split <;> rfl

/-- The heal effect preserves the player's identity and max health. -/
theorem apply_consumable_heal_identity (player : Player) (props : String) :
    (apply_consumable_heal player props).identity = player.identity := by
  unfold apply_consumable_heal
  split <;> rfl

/-- The heal effect preserves max health. -/
theorem apply_consumable_heal_max (player : Player) (props : String) :
    (apply_consumable_heal player props).max_health = player.max_health := by
  unfold apply_consumable_heal
  split <;> rfl

/-- With a nonnegative configured heal, the heal effect keeps health within
`[0, max_health]`. -/
theorem apply_consumable_heal_bounds (player : Player) (props : String)
    (h0 : 0 ≤ player.health) (h1 : player.health ≤ player.max_health)
    (hnn : heal_nonneg props = true) :
    0 ≤ (apply_consumable_heal player props).health ∧
    (apply_consumable_heal player props).health ≤
      (apply_consumable_heal player props).max_health := by
  unfold apply_consumable_heal
  unfold heal_nonneg at hnn
  split
  · rename_i heal hparse
    rw [hparse] at hnn
    have hh : 0 ≤ heal := of_decide_eq_true hnn
    constructor
    · exact le_min (add_nonneg h0 hh) (le_trans h0 h1)
    · exact min_le_right _ _
  · exact ⟨h0, h1⟩

/-- The level step touches neither identity nor health fields. -/
theorem stats_apply_level_fields (player : Player) (o : Option ℕ) :
    (stats_apply_level player o).identity = player.identity ∧
    (stats_apply_level player o).health = player.health ∧
    (stats_apply_level player o).max_health = player.max_health := by
  unfold stats_apply_level
  cases o <;> exact ⟨rfl, rfl, rfl⟩

/-- The experience step touches neither identity nor health fields. -/
theorem stats_apply_experience_fields (player : Player) (o : Option ℕ) :
    (stats_apply_experience player o).identity = player.identity ∧
    (stats_apply_experience player o).health = player.health ∧
    (stats_apply_experience player o).max_health = player.max_health := by
  unfold stats_apply_experience
  cases o <;> exact ⟨rfl, rfl, rfl⟩

/-- The health step preserves identity and max health, and keeps health in
`[0, max_health]` when the proposed value is nonnegative. -/
theorem stats_apply_health_fields (player : Player) (o : Option ℚ)
    (h0 : 0 ≤ player.health) (h1 : player.health ≤ player.max_health)
    (hin : ∀ xq, o = some xq → 0 ≤ xq) :
    (stats_apply_health player o).identity = player.identity ∧
    (stats_apply_health player o).max_health = player.max_health ∧
    0 ≤ (stats_apply_health player o).health ∧
    (stats_apply_health player o).health ≤
      (stats_apply_health player o).max_health := by
  unfold stats_apply_health
  cases o with
  | none => exact ⟨rfl, rfl, h0, h1⟩
  | some xq =>
      refine ⟨rfl, rfl, ?_, ?_⟩
      · exact le_min (hin xq rfl) (le_trans h0 h1)
      · exact min_le_right _ _

/-- The max-health step preserves identity, and keeps health in
`[0, max_health]` when the proposed max is nonnegative. -/
theorem stats_apply_max_health_fields (player : Player) (o : Option ℚ)
    (h0 : 0 ≤ player.health) (h1 : player.health ≤ player.max_health)
    (hin : ∀ xq, o = some xq → 0 ≤ xq) :
    (stats_apply_max_health player o).identity = player.identity ∧
    0 ≤ (stats_apply_max_health player o).health ∧
    (stats_apply_max_health player o).health ≤
      (stats_apply_max_health player o).max_health := by
  cases o with
  | none => exact ⟨rfl, h0, h1⟩
  | some xq =>
      simp only [stats_apply_max_health]
      by_cases hlt : xq < player.health
      · rw [if_pos hlt]
        exact ⟨rfl, hin xq rfl, le_refl _⟩
      · rw [if_neg hlt]
        exact ⟨rfl, h0, not_lt.mp hlt⟩

/-- `attack_npc` keeps health within `[0, max_health]` for nonnegative damage
(the source clamps only from below, so the nonnegativity hypothesis is
essential — see the counterexample). -/
theorem attack_npc_health_bounds (player : Player) (npc : NPC) (damage : ℚ)
    (now : Time) (npc' : NPC)
    (hd : 0 ≤ damage) (h0 : 0 ≤ npc.health) (h1 : npc.health ≤ npc.max_health)
    (hok : attack_npc player npc damage now = Except.ok npc') :
    0 ≤ npc'.health ∧ npc'.health ≤ npc'.max_health := by
  have hmaxnn : 0 ≤ npc.max_health := le_trans h0 h1
  have hup : max (npc.health - damage) 0 ≤ npc.max_health :=
    max_le (le_trans (sub_le_self _ hd) h1) hmaxnn
  unfold attack_npc at hok
  split_ifs at hok with hoff hfar
  simp only [] at hok
  split_ifs at hok with hdead hidle
  · injection hok with hok
    rw [← hok]
    exact ⟨le_max_right _ _, hup⟩
  · injection hok with hok
    rw [← hok]
    exact ⟨le_max_right _ _, hup⟩
  · injection hok with hok
    rw [← hok]
    exact ⟨le_max_right _ _, hup⟩

/-- `use_item` leaves the acting player's health within `[0, max_health]`
when every catalog heal amount is nonnegative. -/
theorem use_item_health_bounds (ctx : Ctx) (item_id : String) (db : DB)
    (player : Player) (db' : DB)
    (hp : Player.filter_by_identity db ctx.sender = some player)
    (h0 : 0 ≤ player.health) (h1 : player.health ≤ player.max_health)
    (hheal : ∀ item ∈ db.game_items, heal_nonneg item.properties_json = true)
    (hok : use_item ctx item_id db = Except.ok db') :
    ∃ p', Player.filter_by_identity db' ctx.sender = some p' ∧
      0 ≤ p'.health ∧ p'.health ≤ p'.max_health := by
  unfold use_item at hok
  rw [hp] at hok
  simp only [] at hok
  split at hok
  · cases hok
  · rename_i item hitem
    split at hok
    · cases hok
    · split_ifs at hok with htype
      · split at hok
        · cases hok
        · rename_i db1 hrem
          injection hok with hok
          have hplayers : db1.game_players = db.game_players :=
            remove_item_players ctx item_id 1 db db1 hrem
          have hnn : heal_nonneg item.properties_json = true :=
            hheal item (List.mem_of_find?_eq_some hitem)
          have hbounds := apply_consumable_heal_bounds player
            item.properties_json h0 h1 hnn
          refine ⟨apply_consumable_heal player item.properties_json, ?_,
            hbounds.1, hbounds.2⟩
          rw [← hok]
          unfold Player.filter_by_identity update_player_row
          simp only [hplayers]
          exact find?_update_row db.game_players ctx.sender player
            (apply_consumable_heal player item.properties_json) hp
            (apply_consumable_heal_identity player item.properties_json)

/-- `update_player_stats` leaves the acting player's health within
`[0, max_health]` when the proposed health and max-health values are
nonnegative (the source caps health only from above — a negative proposed
health is stored as-is). -/
theorem update_player_stats_health_bounds (ctx : Ctx)
    (level experience : Option ℕ) (health max_health : Option ℚ) (db : DB)
    (player : Player) (db' : DB)
    (hp : Player.filter_by_identity db ctx.sender = some player)
    (h0 : 0 ≤ player.health) (h1 : player.health ≤ player.max_health)
    (hh : ∀ xq, health = some xq → 0 ≤ xq)
    (hm : ∀ xq, max_health = some xq → 0 ≤ xq)
    (hok : update_player_stats ctx level experience health max_health db =
      Except.ok db') :
    ∃ p', Player.filter_by_identity db' ctx.sender = some p' ∧
      0 ≤ p'.health ∧ p'.health ≤ p'.max_health := by
  unfold update_player_stats at hok
  rw [hp] at hok
  simp only [] at hok
  injection hok with hok
  have hl := stats_apply_level_fields player level
  have he := stats_apply_experience_fields (stats_apply_level player level)
    experience
  have hhf := stats_apply_health_fields
    (stats_apply_experience (stats_apply_level player level) experience) health
    (by rw [he.2.1, hl.2.1]; exact h0)
    (by rw [he.2.1, hl.2.1, he.2.2, hl.2.2]; exact h1) hh
  have hmf := stats_apply_max_health_fields
    (stats_apply_health
      (stats_apply_experience (stats_apply_level player level) experience)
      health) max_health hhf.2.2.1 hhf.2.2.2 hm
  refine ⟨stats_refresh_last_seen
    (stats_apply_max_health
      (stats_apply_health
        (stats_apply_experience (stats_apply_level player level) experience)
        health) max_health) ctx.timestamp, ?_, hmf.2.1, hmf.2.2⟩
  rw [← hok]
  rw [Player.filter_by_identity, update_activity_players]
  unfold update_player_row
  refine find?_update_row db.game_players ctx.sender player _ hp ?_
  show (stats_refresh_last_seen _ _).identity = player.identity
  rw [show ∀ (p : Player) (ts : Time),
      (stats_refresh_last_seen p ts).identity = p.identity from fun p ts => rfl]
  rw [hmf.1, hhf.1, he.1, hl.1]

/-- C4 counterexample: `attack_npc` clamps health only at 0, so a negative
damage amount (explicitly included in the claim) pushes health above
max_health: a 50/50 goblin hit with damage -10 ends at 60 > 50. -/
theorem C4_counterexample_negative_damage :
    attack_npc basePlayer goblinNpc (-10) 0 =
      Except.ok { goblinNpc with health := 60, ai_state := "chasing" } ∧
    0 ≤ goblinNpc.health ∧ goblinNpc.health ≤ goblinNpc.max_health ∧
    ¬(({ goblinNpc with health := 60, ai_state := "chasing" } : NPC).health ≤
      ({ goblinNpc with health := 60, ai_state := "chasing" } : NPC).max_health) := by
  refine ⟨?_, by decide, by decide, by decide⟩
  norm_num [attack_npc, basePlayer, goblinNpc, calculate_distance_sq]

/-- C4 (amended): after `attack_npc` with nonnegative damage, after
`use_item` with a nonnegatively-configured heal, and after
`update_player_stats` with nonnegative proposed health and max-health, the
affected entity's health lies in `[0, max_health]` (given it started there).
Negative inputs escape the bounds: `attack_npc` clamps only from below and
`update_player_stats` only from above. -/
theorem C4_health_bounds_for_nonnegative_inputs :
    (∀ (player : Player) (npc : NPC) (damage : ℚ) (now : Time) (npc' : NPC),
      0 ≤ damage → 0 ≤ npc.health → npc.health ≤ npc.max_health →
      attack_npc player npc damage now = Except.ok npc' →
      0 ≤ npc'.health ∧ npc'.health ≤ npc'.max_health) ∧
    (∀ (ctx : Ctx) (item_id : String) (db : DB) (player : Player) (db' : DB),
      Player.filter_by_identity db ctx.sender = some player →
      0 ≤ player.health → player.health ≤ player.max_health →
      (∀ item ∈ db.game_items, heal_nonneg item.properties_json = true) →
      use_item ctx item_id db = Except.ok db' →
      ∃ p', Player.filter_by_identity db' ctx.sender = some p' ∧
        0 ≤ p'.health ∧ p'.health ≤ p'.max_health) ∧
    (∀ (ctx : Ctx) (level experience : Option ℕ) (health max_health : Option ℚ)
        (db : DB) (player : Player) (db' : DB),
      Player.filter_by_identity db ctx.sender = some player →
      0 ≤ player.health → player.health ≤ player.max_health →
      (∀ xq, health = some xq → 0 ≤ xq) →
      (∀ xq, max_health = some xq → 0 ≤ xq) →
      update_player_stats ctx level experience health max_health db =
        Except.ok db' →
      ∃ p', Player.filter_by_identity db' ctx.sender = some p' ∧
        0 ≤ p'.health ∧ p'.health ≤ p'.max_health) :=
  ⟨attack_npc_health_bounds, use_item_health_bounds,
    update_player_stats_health_bounds⟩

/-- C4 witness: the three bounds at concrete inputs — 10 damage on the 50/50
goblin, one 50-heal potion on a 60/100 player, and a proposed health of 30 on
a 100/100 player. -/
theorem C4_health_bounds_witness :
    (0 ≤ ({ goblinNpc with health := 40, ai_state := "chasing" } : NPC).health ∧
      ({ goblinNpc with health := 40, ai_state := "chasing" } : NPC).health ≤
        ({ goblinNpc with health := 40, ai_state := "chasing" } : NPC).max_health) ∧
    (∃ p', Player.filter_by_identity dbPotionAfter 1 = some p' ∧
      0 ≤ p'.health ∧ p'.health ≤ p'.max_health) ∧
    (∃ p', Player.filter_by_identity dbStatsAfter 1 = some p' ∧
      0 ≤ p'.health ∧ p'.health ≤ p'.max_health) := by
  refine ⟨?_, ?_, ?_⟩
  · refine C4_health_bounds_for_nonnegative_inputs.1 basePlayer goblinNpc 10 0
      { goblinNpc with health := 40, ai_state := "chasing" }
      (by norm_num) (by decide) (by decide) ?_
    norm_num [attack_npc, basePlayer, goblinNpc, calculate_distance_sq]
  · refine C4_health_bounds_for_nonnegative_inputs.2.1 ctx0 "potion_health"
      dbPotion { basePlayer with health := 60 } dbPotionAfter
      (by decide) (by decide) (by decide) (by decide) ?_
    have hparse : parse_heal_amount "\x7b\"heal_amount\": 50\x7d" = some 50 := by
      decide
    norm_num [use_item, Player.filter_by_identity, find_inventory_item,
      remove_item_from_inventory, update_inventory_row, update_player_row,
      apply_consumable_heal, hparse, dbPotion, dbPotionAfter, basePlayer,
      potionItem, potionSlot, ctx0, List.filter]
  · refine C4_health_bounds_for_nonnegative_inputs.2.2 ctx0 none none
      (some 30) none dbStale basePlayer dbStatsAfter
      (by decide) (by decide) (by decide) ?_ (by intro xq h; cases h) ?_
    · intro xq h
      injection h with h
      rw [← h]
      norm_num
    · norm_num [update_player_stats, Player.filter_by_identity,
        stats_apply_level, stats_apply_experience, stats_apply_health,
        stats_apply_max_health, stats_refresh_last_seen, update_player_row,
        GameSession.update_activity, GameSession.filter_by_identity,
        dbStale, dbStatsAfter, basePlayer, baseSession, ctx0, List.filter]
